import Mathlib

/-!
Verification of the authentication/session core of the `23controls` backend
(`src/backend/app/services/auth.py`, `src/backend/app/api/v1/endpoints/auth.py`,
`src/backend/app/api/v1/dependencies/auth.py`, `src/backend/app/models/user.py`)
against its natural-language specification.

Modelling conventions:
* Python `str` values are Lean `String`s; raw byte strings are `List Nat`
  (each entry < 256), produced by an executable UTF-8 encoder mirroring
  Python's `str.encode("utf-8")`.
* Timestamps (`datetime.utcnow()`) are seconds since the epoch, as `Nat`.
* Database state is explicit: a `Db` record of user rows and refresh-token
  rows; every service method that commits returns the updated `Db`.
* External cryptographic collaborators (passlib's bcrypt backend, the JOSE
  JWT signer, pyotp's HOTP code function) are idealized: bcrypt digests are
  collision-free records of salt and (truncated) key, a JWT signature binds
  the payload perfectly to the signing key and algorithm, and the per-counter
  TOTP code function is an abstract parameter.  Python exceptions raised by a
  library call and not handled by the wrapper are `Except.error` values that
  propagate, exactly as an uncaught exception propagates out of the handler.
-/

/-- UTF-8 encoding of a single code point, as in Python's `str.encode("utf-8")`. -/
def utf8Bytes (c : Char) : List Nat :=
  let n := c.toNat
  if n < 0x80 then [n]
  else if n < 0x800 then
    [0xC0 ||| (n >>> 6), 0x80 ||| (n &&& 0x3F)]
  else if n < 0x10000 then
    [0xE0 ||| (n >>> 12), 0x80 ||| ((n >>> 6) &&& 0x3F), 0x80 ||| (n &&& 0x3F)]
  else
    [0xF0 ||| (n >>> 18), 0x80 ||| ((n >>> 12) &&& 0x3F),
     0x80 ||| ((n >>> 6) &&& 0x3F), 0x80 ||| (n &&& 0x3F)]

/-- `s.encode("utf-8")` : the byte string of a Python `str`. -/
def encodeUtf8 (s : String) : List Nat :=
  s.data.flatMap utf8Bytes

/-- `AuthService.truncate_password` (services/auth.py:34-49):
`password.encode("utf-8")[:72]`. -/
def truncate_password (password : String) : List Nat :=
  (encodeUtf8 password).take 72

/-- A bcrypt digest string as handled by passlib's `CryptContext`.
`bcrypt salt key` is the digest produced by hashing byte string `key` with
salt `salt` (idealized as collision-free: the digest determines the key).
`malformed s` is any string that passlib cannot identify as a bcrypt hash. -/
inductive Digest where
  | bcrypt (salt : Nat) (key : List Nat) : Digest
  | malformed (s : String) : Digest
deriving DecidableEq

/-- Model of `pwd_context.hash` for the bcrypt scheme: a fresh digest over the
given secret bytes.  bcrypt salts are random; the salt is made an explicit
argument so that hashing is a function. -/
def pwd_context_hash (salt : Nat) (secret : List Nat) : Digest :=
  Digest.bcrypt salt secret

/-- Model of `pwd_context.verify`.  On a digest that cannot be identified as a
bcrypt hash, passlib's documented behaviour is to raise
`passlib.exc.UnknownHashError`; that exception is the `Except.error` case.
On a well-formed digest it returns whether the secret matches the digest's
key (bcrypt idealized as collision-free). -/
def pwd_context_verify (secret : List Nat) (digest : Digest) : Except String Bool :=
  match digest with
  | Digest.bcrypt _ key => Except.ok (decide (secret = key))
  | Digest.malformed _ => Except.error "UnknownHashError"

/-- `AuthService.hash_password` (services/auth.py:51-64): truncate to 72 bytes,
then `pwd_context.hash`. -/
def hash_password (salt : Nat) (password : String) : Digest :=
  pwd_context_hash salt (truncate_password password)

/-- `AuthService.verify_password` (services/auth.py:66-80): truncate to 72
bytes, then `pwd_context.verify`.  The wrapper has no exception handling, so a
library error propagates. -/
def verify_password (plain_password : String) (hashed_password : Digest) :
    Except String Bool :=
  pwd_context_verify (truncate_password plain_password) hashed_password

/-- The signing configuration fields of `Settings` (core/config.py:27-32)
used by the token service. -/
structure Settings where
  JWT_SECRET_KEY : String
  JWT_ALGORITHM : String
  JWT_ACCESS_TOKEN_EXPIRE_MINUTES : Nat
  JWT_REFRESH_TOKEN_EXPIRE_DAYS : Nat
deriving DecidableEq

/-- A decoded JWT payload: `{sub, email?, exp, iat, type, jti?}` (§6 of the
spec; services/auth.py:101-105 and 134-139).  `sub` is the integer user id
that the endpoints place in the `data` dict. -/
structure JwtPayload where
  sub : Nat
  email : Option String
  exp : Nat
  iat : Nat
  type : String
  jti : Option String
deriving DecidableEq

/-- A signed JWT.  The signature is idealized as perfectly binding: the token
records the payload together with the key and algorithm it was signed with,
and decoding succeeds only under the same key and algorithm. -/
structure Token where
  payload : JwtPayload
  sigKey : String
  alg : String
deriving DecidableEq

/-- `AuthService.create_access_token` (services/auth.py:82-112): copies the
caller's data (`sub`, optional `email`), sets `exp` to now plus the configured
access lifetime in minutes (or the explicit `expires_delta`, in seconds),
`iat` to now, and `type` to `"access"`, then signs with the configured key
and algorithm. -/
def create_access_token (cfg : Settings) (data_sub : Nat)
    (data_email : Option String) (expires_delta : Option Nat) (now : Nat) :
    Token :=
  let expire :=
    match expires_delta with
    | some d => now + d
    | none => now + 60 * cfg.JWT_ACCESS_TOKEN_EXPIRE_MINUTES
  { payload :=
      { sub := data_sub, email := data_email, exp := expire, iat := now,
        type := "access", jti := none },
    sigKey := cfg.JWT_SECRET_KEY, alg := cfg.JWT_ALGORITHM }

/-- `AuthService.create_refresh_token` (services/auth.py:114-146): like the
access token but with `type = "refresh"`, a fresh `jti` (a UUID, passed here
as an argument), and the configured refresh lifetime in days. -/
def create_refresh_token (cfg : Settings) (data_sub : Nat)
    (expires_delta : Option Nat) (now : Nat) (jti : String) :
    Token × String :=
  let expire :=
    match expires_delta with
    | some d => now + d
    | none => now + 86400 * cfg.JWT_REFRESH_TOKEN_EXPIRE_DAYS
  ({ payload :=
       { sub := data_sub, email := none, exp := expire, iat := now,
         type := "refresh", jti := some jti },
     sigKey := cfg.JWT_SECRET_KEY, alg := cfg.JWT_ALGORITHM },
   jti)

/-- `AuthService.decode_token` (services/auth.py:148-170): `jwt.decode` with
the configured key and algorithm list; a signature/algorithm mismatch or an
expired token raises `JWTError`, which the wrapper converts to `ValueError`
(modelled as `Except.error`). -/
def decode_token (cfg : Settings) (token : Token) (now : Nat) :
    Except String JwtPayload :=
  if token.sigKey = cfg.JWT_SECRET_KEY ∧ token.alg = cfg.JWT_ALGORITHM ∧
      now ≤ token.payload.exp then
    Except.ok token.payload
  else
    Except.error "Invalid token"

/-- pyotp's timecode for a 30-second interval: `int(for_time / 30)`. -/
def timecode (t : Nat) : Int :=
  ((t / 30 : Nat) : Int)

/-- "The 30-second-step code generated for `now`": the standard TOTP value at
the current counter, i.e. `pyotp.TOTP(secret).now()`.  The per-counter code
function `otpFn` (HMAC-based in pyotp) is an abstract parameter. -/
def totp_now (otpFn : String → Int → String) (secret : String) (now : Nat) :
    String :=
  otpFn secret (timecode now)

/-- `AuthService.verify_totp` (services/auth.py:347-360):
`pyotp.TOTP(secret).verify(token, valid_window=1)`, which compares the
submitted string against the codes for counters `timecode(now) - 1`,
`timecode(now)` and `timecode(now) + 1`. -/
def verify_totp (otpFn : String → Int → String) (secret : String)
    (token : String) (now : Nat) : Bool :=
  token == otpFn secret (timecode now - 1) ||
  token == otpFn secret (timecode now) ||
  token == otpFn secret (timecode now + 1)

/-- `SecurityType` (models/user.py:13-18). -/
inductive SecurityType where
  | PASSWORD
  | GOOGLE_OAUTH
  | AMAZON_OAUTH
  | SSO
deriving DecidableEq

/-- `UserStatus` (models/user.py:29-34). -/
inductive UserStatus where
  | ACTIVE
  | INACTIVE
  | SUSPENDED
  | PENDING_VERIFICATION
deriving DecidableEq

/-- The columns of the `users` table touched by the auth core
(models/user.py:37-144). -/
structure User where
  id : Nat
  email : String
  security_type : SecurityType
  password_hash : Option Digest
  mfa_enabled : Bool
  mfa_secret : Option String
  status : UserStatus
  last_login_at : Option Nat
  last_login_ip : Option String
  failed_login_attempts : Nat
  locked_until : Option Nat
  password_changed_at : Option Nat
  is_active : Bool
deriving DecidableEq

/-- `User.is_locked` (models/user.py:123-128): locked iff `locked_until` is
set and strictly in the future. -/
def User.is_locked (u : User) (now : Nat) : Bool :=
  match u.locked_until with
  | some t => decide (now < t)
  | none => false

/-- `User.can_login` (models/user.py:130-137). -/
def User.can_login (u : User) (now : Nat) : Bool :=
  u.is_active && !u.is_locked now && decide (u.status = UserStatus.ACTIVE)

/-- The columns of the `refresh_tokens` table (models/user.py:147-185). -/
structure RefreshTokenRec where
  user_id : Nat
  token : Token
  jti : String
  expires_at : Nat
  revoked : Bool
  revoked_at : Option Nat
  ip_address : Option String
  user_agent : Option String
deriving DecidableEq

/-- The database state visible to the auth core: the `users` and
`refresh_tokens` tables as row lists. -/
structure Db where
  users : List User
  tokens : List RefreshTokenRec
deriving DecidableEq

/-- Update the first row matched by `p` (a SQLAlchemy fetch of a single row
followed by attribute mutation and commit). -/
def updateFirst (p : α → Bool) (f : α → α) : List α → List α
  | [] => []
  | x :: xs => if p x then f x :: xs else x :: updateFirst p f xs

/-- `select(User).where(User.email == email)` + `scalar_one_or_none()`
(emails are unique, models/user.py:53). -/
def Db.findUserByEmail (db : Db) (email : String) : Option User :=
  db.users.find? (fun u => u.email == email)

/-- Commit mutated attributes of one user row, matched by primary key. -/
def Db.saveUser (db : Db) (u : User) : Db :=
  { db with users := updateFirst (fun v => v.id == u.id) (fun _ => u) db.users }

/-- `AuthService.save_refresh_token` (services/auth.py:172-210): inserts a new
row.  The `token` and `jti` columns carry unique constraints
(models/user.py:158-159), so an insert that collides with an existing row
fails with an integrity error and leaves the table unchanged. -/
def save_refresh_token (db : Db) (user_id : Nat) (token : Token) (jti : String)
    (expires_at : Nat) (ip_address : Option String) (user_agent : Option String) :
    Except String (RefreshTokenRec × Db) :=
  if db.tokens.any (fun r => r.token == token || r.jti == jti) then
    Except.error "IntegrityError"
  else
    let rec_ : RefreshTokenRec :=
      { user_id := user_id, token := token, jti := jti,
        expires_at := expires_at, revoked := false, revoked_at := none,
        ip_address := ip_address, user_agent := user_agent }
    Except.ok (rec_, { db with tokens := db.tokens ++ [rec_] })

/-- `AuthService.verify_refresh_token` (services/auth.py:212-231): select the
row whose `token` column matches and which is not revoked and not expired
(`expires_at > utcnow()`), or `None`. -/
def verify_refresh_token (db : Db) (token : Token) (now : Nat) :
    Option RefreshTokenRec :=
  db.tokens.find? (fun r => r.token == token && !r.revoked && decide (now < r.expires_at))

/-- `AuthService.revoke_refresh_token` (services/auth.py:233-256): fetch the
row by token string; if present, set `revoked`/`revoked_at` and commit,
returning `true`; otherwise return `false`. -/
def revoke_refresh_token (db : Db) (token : Token) (now : Nat) : Bool × Db :=
  if db.tokens.any (fun r => r.token == token) then
    (true,
     { db with
         tokens := updateFirst (fun r => r.token == token)
           (fun r => { r with revoked := true, revoked_at := some now })
           db.tokens })
  else
    (false, db)

/-- `AuthService.revoke_all_user_tokens` (services/auth.py:258-285): mark every
not-yet-revoked token row of the user revoked; return how many were marked. -/
def revoke_all_user_tokens (db : Db) (user_id : Nat) (now : Nat) : Nat × Db :=
  ((db.tokens.filter (fun r => r.user_id == user_id && !r.revoked)).length,
   { db with
       tokens := db.tokens.map (fun r =>
         if r.user_id == user_id && !r.revoked then
           { r with revoked := true, revoked_at := some now }
         else r) })

/-- The user row after the final success block of `authenticate_user`
(services/auth.py:422-425): reset the failure counter and stamp the login. -/
def loginSuccessUpdate (u : User) (now : Nat) : User :=
  { u with failed_login_attempts := 0, last_login_at := some now }

/-- The user row after a failed password check (services/auth.py:400-407):
increment the failure counter and, at 5 or more failures, set
`locked_until := now + 30 minutes`. -/
def failedLoginUpdate (u : User) (now : Nat) : User :=
  let f := u.failed_login_attempts + 1
  { u with
      failed_login_attempts := f,
      locked_until := if 5 ≤ f then some (now + 1800) else u.locked_until }

/-- `AuthService.authenticate_user` (services/auth.py:362-427).  Returns the
authenticated (and committed) user row, or `none` on any authentication
failure; an exception escaping the un-guarded `verify_password` call
propagates as `Except.error`.  `otpFn` is the abstract TOTP code function
consumed by `verify_totp`. -/
def authenticate_user (otpFn : String → Int → String) (db : Db) (email : String)
    (password : String) (mfa_token : Option String) (now : Nat) :
    Except String (Option User × Db) := do
  match db.findUserByEmail email with
  | none => return (none, db)
  | some user =>
    if !user.can_login now then
      return (none, db)
    else if user.security_type = SecurityType.PASSWORD then
      match user.password_hash with
      | none => return (none, db)
      | some h =>
        let ok ← verify_password password h
        if !ok then
          return (none, db.saveUser (failedLoginUpdate user now))
        else if user.mfa_enabled then
          match mfa_token, user.mfa_secret with
          | none, _ => return (none, db)
          | some _, none => return (none, db)
          | some tok, some secret =>
            if !verify_totp otpFn secret tok now then
              return (none, db)
            else
              let u' := loginSuccessUpdate user now
              return (some u', db.saveUser u')
        else
          let u' := loginSuccessUpdate user now
          return (some u', db.saveUser u')
    else if user.mfa_enabled then
      match mfa_token, user.mfa_secret with
      | none, _ => return (none, db)
      | some _, none => return (none, db)
      | some tok, some secret =>
        if !verify_totp otpFn secret tok now then
          return (none, db)
        else
          let u' := loginSuccessUpdate user now
          return (some u', db.saveUser u')
    else
      let u' := loginSuccessUpdate user now
      return (some u', db.saveUser u')

/-- The error outcomes an endpoint can produce: an `HTTPException` with its
status and `detail`, or an uncaught internal exception (HTTP 500). -/
inductive ApiError where
  | unauthorized (detail : String)
  | badRequest (detail : String)
  | notFound (detail : String)
  | internal (detail : String)
deriving DecidableEq

/-- The `TokenResponse` schema returned by `/login` and `/refresh`. -/
structure TokenResponse where
  access_token : Token
  refresh_token : Token
  token_type : String
  expires_in : Nat
deriving DecidableEq

/-- The `login` endpoint (endpoints/auth.py:157-216): authenticate, and on
failure raise 401 `"Incorrect email or password"`; on success mint an access
token and a refresh token, persist the refresh token (expiry hard-coded to
`now + 7 days`), stamp last-login, and return the token pair
(`expires_in` hard-coded to 30 minutes). -/
def login (cfg : Settings) (otpFn : String → Int → String) (db : Db)
    (email : String) (password : String) (mfa_token : Option String)
    (now : Nat) (jti : String) (ip : Option String) (ua : Option String) :
    Except ApiError TokenResponse × Db :=
  match authenticate_user otpFn db email password mfa_token now with
  | Except.error e => (Except.error (ApiError.internal e), db)
  | Except.ok (none, db') =>
    (Except.error (ApiError.unauthorized "Incorrect email or password"), db')
  | Except.ok (some user, db') =>
    let access_token := create_access_token cfg user.id (some user.email) none now
    let (refresh_token, jti') := create_refresh_token cfg user.id none now jti
    match save_refresh_token db' user.id refresh_token jti' (now + 7 * 86400) ip ua with
    | Except.error e => (Except.error (ApiError.internal e), db')
    | Except.ok (_, db'') =>
      let u2 := { user with last_login_at := some now, last_login_ip := ip }
      (Except.ok
         { access_token := access_token, refresh_token := refresh_token,
           token_type := "bearer", expires_in := 30 * 60 },
       db''.saveUser u2)

/-- The `logout` endpoint (endpoints/auth.py:288-309): revoke the supplied
refresh token by its token string; 404 if no row matched.  The authenticated
caller (`current_user`) is not consulted by the revocation. -/
def logout (db : Db) (current_user : User) (refresh_token : Token) (now : Nat) :
    Except ApiError String × Db :=
  let (revoked, db') := revoke_refresh_token db refresh_token now
  if revoked then
    (Except.ok "Successfully logged out", db')
  else
    (Except.error (ApiError.notFound "Refresh token not found"), db)

/-- The `change_password` endpoint (endpoints/auth.py:436-472): require a
stored hash (400 for OAuth users), verify the old password (400 on mismatch),
then store the new hash, stamp `password_changed_at`, and revoke all of the
user's refresh tokens.  `current_user` is the row injected by
`get_current_active_user`. -/
def change_password (db : Db) (current_user : User) (old_password : String)
    (new_password : String) (now : Nat) (salt : Nat) :
    Except String (Except ApiError String × Db) := do
  match current_user.password_hash with
  | none =>
    return (Except.error (ApiError.badRequest "User doesn't have a password (OAuth user)"), db)
  | some h =>
    let ok ← verify_password old_password h
    if !ok then
      return (Except.error (ApiError.badRequest "Incorrect current password"), db)
    else
      let u' := { current_user with
                    password_hash := some (hash_password salt new_password),
                    password_changed_at := some now }
      let (_, db') := revoke_all_user_tokens db current_user.id now
      return (Except.ok "Password changed successfully. Please login again with your new password.",
              (db'.saveUser u'))

/-- The refresh-token-store operations of §6 of the spec, as a step
alphabet for temporal claims: insert, targeted revoke, bulk revoke. -/
inductive TokenOp where
  | save (user_id : Nat) (token : Token) (jti : String) (expires_at : Nat)
      (ip : Option String) (ua : Option String)
  | revoke (token : Token)
  | revokeAll (user_id : Nat)

/-- Apply one store operation at time `now` (a failed insert leaves the
table unchanged, as the surrounding transaction rolls back). -/
def applyOp (db : Db) (now : Nat) : TokenOp → Db
  | TokenOp.save uid tok jti exp_ ip ua =>
    match save_refresh_token db uid tok jti exp_ ip ua with
    | Except.ok (_, db') => db'
    | Except.error _ => db
  | TokenOp.revoke tok => (revoke_refresh_token db tok now).2
  | TokenOp.revokeAll uid => (revoke_all_user_tokens db uid now).2

/-- Apply a timed sequence of store operations. -/
def applyOps (db : Db) (ops : List (Nat × TokenOp)) : Db :=
  ops.foldl (fun d p => applyOp d p.1 p.2) db

/-! ### Concrete fixtures shared by the endpoint-level claims -/

/-- A concrete signing configuration with the default lifetimes. -/
def cfgEx : Settings := ⟨"server-key", "HS256", 30, 7⟩

/-- A concrete per-counter code function. -/
def otpEx : String → Int → String := fun _ c => toString c

/-- A password-mode user currently locked out (until t = 10000) whose stored
hash is the hash of "correct horse". -/
def aliceEx : User :=
  { id := 1, email := "alice@example.com",
    security_type := SecurityType.PASSWORD,
    password_hash := some (hash_password 3 "correct horse"),
    mfa_enabled := false, mfa_secret := none,
    status := UserStatus.ACTIVE, last_login_at := none, last_login_ip := none,
    failed_login_attempts := 5, locked_until := some 10000,
    password_changed_at := none, is_active := true }

/-- An unlocked password-mode user whose stored hash is the hash of
"bob secret". -/
def bobEx : User :=
  { id := 2, email := "bob@example.com",
    security_type := SecurityType.PASSWORD,
    password_hash := some (hash_password 4 "bob secret"),
    mfa_enabled := false, mfa_secret := none,
    status := UserStatus.ACTIVE, last_login_at := none, last_login_ip := none,
    failed_login_attempts := 0, locked_until := none,
    password_changed_at := none, is_active := true }

/-- An active OAuth (non-password) user with MFA disabled and no stored
hash. -/
def carolEx : User :=
  { id := 3, email := "carol@example.com",
    security_type := SecurityType.GOOGLE_OAUTH,
    password_hash := none,
    mfa_enabled := false, mfa_secret := none,
    status := UserStatus.ACTIVE, last_login_at := none, last_login_ip := none,
    failed_login_attempts := 0, locked_until := none,
    password_changed_at := none, is_active := true }

/-- A concrete database with the three users and no refresh tokens. -/
def dbEx : Db := ⟨[aliceEx, bobEx, carolEx], []⟩

/-- A refresh-token row owned by user 9, used by the logout witness. -/
def recEx : RefreshTokenRec :=
  { user_id := 9, token := (create_refresh_token cfgEx 9 none 0 "jt9").1,
    jti := "jt9", expires_at := 604800, revoked := false, revoked_at := none,
    ip_address := none, user_agent := none }

/-- A concrete database holding user 9's refresh token, with `aliceEx` as the
authenticated caller. -/
def dbTokEx : Db := ⟨[aliceEx], [recEx]⟩

/-- A database for the C9 witness: `bobEx` with one live refresh token. -/
def dbPwEx : Db :=
  ⟨[bobEx],
   [{ user_id := 2, token := (create_refresh_token cfgEx 2 none 0 "jt2").1,
      jti := "jt2", expires_at := 604800, revoked := false, revoked_at := none,
      ip_address := none, user_agent := none }]⟩

/-- Invariant: some row with this token string exists, and every row with
this token string is revoked.  (The existing row makes the `token` unique
constraint reject any later insert reusing the string; rows are never
deleted.) -/
def allRevoked (tok : Token) (db : Db) : Prop :=
  (∃ r ∈ db.tokens, r.token = tok) ∧
  ∀ r ∈ db.tokens, r.token = tok → r.revoked = true

/-- The refresh token revoked in the C5 witness. -/
def tokC5 : Token := (create_refresh_token cfgEx 5 none 0 "jt5").1

/-- A database holding one live row for `tokC5`. -/
def dbC5 : Db :=
  ⟨[], [{ user_id := 5, token := tokC5, jti := "jt5", expires_at := 1000,
          revoked := false, revoked_at := none, ip_address := none,
          user_agent := none }]⟩

/-- A database whose only row for `tokC5` has expired by t = 60. -/
def dbC5exp : Db :=
  ⟨[], [{ user_id := 5, token := tokC5, jti := "jt5x", expires_at := 50,
          revoked := false, revoked_at := none, ip_address := none,
          user_agent := none }]⟩

/-! ### Helper lemmas on `updateFirst` and `List.find?` -/

theorem any_of_find?_eq_some {α : Type} {p : α → Bool} {l : List α} {r : α}
    (h : l.find? p = some r) : l.any p = true :=
  List.any_eq_true.mpr ⟨r, List.mem_of_find?_eq_some h, List.find?_some h⟩

theorem mem_updateFirst_of_find? {α : Type} {p : α → Bool} {f : α → α}
    {l : List α} {r : α} (h : l.find? p = some r) : f r ∈ updateFirst p f l := by
  induction l with
  | nil => simp [List.find?] at h
  | cons x xs ih =>
    by_cases hx : p x
    · rw [List.find?_cons_of_pos _ hx] at h
      cases h
      simp [updateFirst, hx]
    · rw [List.find?_cons_of_neg _ hx] at h
      simp only [updateFirst, hx, if_false]
      exact List.mem_cons_of_mem _ (ih h)

theorem mem_updateFirst {α : Type} {p : α → Bool} {f : α → α} {l : List α}
    {y : α} (hy : y ∈ updateFirst p f l) : y ∈ l ∨ ∃ x, x ∈ l ∧ y = f x := by
  induction l with
  | nil => simp [updateFirst] at hy
  | cons x xs ih =>
    by_cases hx : p x
    · rw [updateFirst, if_pos hx] at hy
      rcases List.mem_cons.mp hy with rfl | hy
      · exact Or.inr ⟨x, List.mem_cons_self x xs, rfl⟩
      · exact Or.inl (List.mem_cons_of_mem _ hy)
    · rw [updateFirst, if_neg hx] at hy
      rcases List.mem_cons.mp hy with rfl | hy
      · exact Or.inl (List.mem_cons_self _ _)
      · rcases ih hy with h | ⟨z, hz, rfl⟩
        · exact Or.inl (List.mem_cons_of_mem _ h)
        · exact Or.inr ⟨z, List.mem_cons_of_mem _ hz, rfl⟩

theorem exists_mem_updateFirst {α : Type} {p : α → Bool} {f : α → α}
    {l : List α} {x : α} (hx : x ∈ l) :
    x ∈ updateFirst p f l ∨ f x ∈ updateFirst p f l := by
  induction l with
  | nil => simp at hx
  | cons z zs ih =>
    by_cases hz : p z
    · rw [updateFirst, if_pos hz]
      rcases List.mem_cons.mp hx with rfl | hx
      · exact Or.inr (List.mem_cons_self _ _)
      · exact Or.inl (List.mem_cons_of_mem _ hx)
    · rw [updateFirst, if_neg hz]
      rcases List.mem_cons.mp hx with rfl | hx
      · exact Or.inl (List.mem_cons_self _ _)
      · rcases ih hx with h | h
        · exact Or.inl (List.mem_cons_of_mem _ h)
        · exact Or.inr (List.mem_cons_of_mem _ h)

theorem find?_updateFirst_const {α : Type} {p : α → Bool} {l : List α}
    {u u' : α} (h : l.find? p = some u) (h' : p u' = true) :
    (updateFirst p (fun _ => u') l).find? p = some u' := by
  induction l with
  | nil => simp [List.find?] at h
  | cons x xs ih =>
    by_cases hx : p x
    · rw [updateFirst, if_pos hx]
      exact List.find?_cons_of_pos _ h'
    · rw [List.find?_cons_of_neg _ hx] at h
      rw [updateFirst, if_neg hx, List.find?_cons_of_neg _ hx]
      exact ih h

/-! ### C3: access-token round trip -/

/-- C3: for every user id and email, decoding a token produced by
`create_access_token` under the issuance-time signing configuration succeeds
at any time up to expiry and recovers the same subject and a `type` claim
equal to `"access"`. -/
theorem decode_access_token_roundtrip (cfg : Settings) (uid : Nat) (em : String)
    (now t : Nat) (h : t ≤ now + 60 * cfg.JWT_ACCESS_TOKEN_EXPIRE_MINUTES) :
    decode_token cfg (create_access_token cfg uid (some em) none now) t =
      Except.ok (create_access_token cfg uid (some em) none now).payload ∧
    (create_access_token cfg uid (some em) none now).payload.sub = uid ∧
    (create_access_token cfg uid (some em) none now).payload.type = "access" := by
  refine ⟨?_, rfl, rfl⟩
  simp [decode_token, create_access_token, h]

/-- Witness for C3 at concrete inputs. -/
theorem decode_access_token_roundtrip_witness :
    decode_token ⟨"k", "HS256", 30, 7⟩
        (create_access_token ⟨"k", "HS256", 30, 7⟩ 5 (some "a@b.c") none 1000) 1200 =
      Except.ok (create_access_token ⟨"k", "HS256", 30, 7⟩ 5 (some "a@b.c") none 1000).payload ∧
    (create_access_token ⟨"k", "HS256", 30, 7⟩ 5 (some "a@b.c") none 1000).payload.sub = 5 ∧
    (create_access_token ⟨"k", "HS256", 30, 7⟩ 5 (some "a@b.c") none 1000).payload.type = "access" :=
  decode_access_token_roundtrip ⟨"k", "HS256", 30, 7⟩ 5 "a@b.c" 1000 1200 (by decide)

/-! ### C4: password hash/verify round trip -/

/-- C4: for every password whose UTF-8 encoding is at most 72 bytes,
`verify_password p (hash_password p)` is true, and for every password whose
72-byte-truncated encoding differs from `p`'s it is false. -/
theorem verify_hash_roundtrip (salt : Nat) (p p' : String) :
    ((encodeUtf8 p).length ≤ 72 →
      verify_password p (hash_password salt p) = Except.ok true) ∧
    (truncate_password p' ≠ truncate_password p →
      verify_password p' (hash_password salt p) = Except.ok false) := by
  constructor
  · intro _
    simp [verify_password, hash_password, pwd_context_hash, pwd_context_verify]
  · intro h
    simp [verify_password, hash_password, pwd_context_hash, pwd_context_verify, h]

/-- Witness for C4 at concrete inputs. -/
theorem verify_hash_roundtrip_witness :
    verify_password "Str0ng-Pass" (hash_password 7 "Str0ng-Pass") = Except.ok true ∧
    verify_password "Str0ng-Pasz" (hash_password 7 "Str0ng-Pass") = Except.ok false :=
  ⟨(verify_hash_roundtrip 7 "Str0ng-Pass" "Str0ng-Pasz").1 (by decide),
   (verify_hash_roundtrip 7 "Str0ng-Pass" "Str0ng-Pasz").2 (by decide)⟩

/-! ### C6: `verify_password` on a malformed digest -/

/-- C6 counterexample: on a malformed digest, `verify_password` does not
return false; the library exception (`UnknownHashError`) propagates out of
the un-guarded wrapper. -/
theorem verify_password_malformed_cex :
    verify_password "secret" (Digest.malformed "not-a-bcrypt-hash") ≠
      Except.ok false ∧
    verify_password "secret" (Digest.malformed "not-a-bcrypt-hash") =
      Except.error "UnknownHashError" := by
  refine ⟨fun h => Except.noConfusion h, rfl⟩

/-- C6 amended: for every secret and every malformed digest,
`verify_password` propagates the library's `UnknownHashError` rather than
returning false (the wrapper adds no exception handling). -/
theorem verify_password_malformed_propagates (p s : String) :
    verify_password p (Digest.malformed s) = Except.error "UnknownHashError" :=
  rfl

/-! ### C7: truncation equivalence of hashing -/

/-- C7: hashing agrees on `p` and `p ++ extra` (for the same salt) whenever
the combined UTF-8 byte length exceeds 72 and the first 72 bytes coincide
with `p`'s: truncation is applied before hashing. -/
theorem hash_truncation_equivalence (salt : Nat) (p extra : String)
    (hlen : 72 < (encodeUtf8 (p ++ extra)).length)
    (hpre : (encodeUtf8 (p ++ extra)).take 72 = (encodeUtf8 p).take 72) :
    hash_password salt (p ++ extra) = hash_password salt p := by
  simp [hash_password, pwd_context_hash, truncate_password, hpre]

/-- Witness for C7: a 72-byte ASCII password extended by two further bytes. -/
theorem hash_truncation_equivalence_witness :
    hash_password 3
        ("aaaaaaaaaaaaaaaaaaaaaaaaaaaaaaaaaaaaaaaaaaaaaaaaaaaaaaaaaaaaaaaaaaaaaaaa" ++ "bc") =
      hash_password 3
        "aaaaaaaaaaaaaaaaaaaaaaaaaaaaaaaaaaaaaaaaaaaaaaaaaaaaaaaaaaaaaaaaaaaaaaaa" :=
  hash_truncation_equivalence 3
    "aaaaaaaaaaaaaaaaaaaaaaaaaaaaaaaaaaaaaaaaaaaaaaaaaaaaaaaaaaaaaaaaaaaaaaaa" "bc"
    (by decide) (by decide)

/-! ### C8: TOTP tolerance window -/

theorem verify_totp_of_near (otpFn : String → Int → String) (secret : String)
    (c : Int) (t : Nat)
    (h : c = timecode t - 1 ∨ c = timecode t ∨ c = timecode t + 1) :
    verify_totp otpFn secret (otpFn secret c) t = true := by
  rcases h with h | h | h <;> simp [verify_totp, h]

/-- C8: a code generated for `now` is accepted by `verify_totp` when checked
29 seconds later and 29 seconds earlier, and rejected when checked 65 seconds
later — the tolerance window is exactly plus or minus one 30-second step.
The per-counter code function is assumed collision-free over the four
counters following `timecode now` (the cryptographic idealization of the
HMAC-based code). -/
theorem verify_totp_window (otpFn : String → Int → String) (secret : String)
    (now : Nat) (h59 : 59 ≤ now)
    (hinj : ∀ c : Int, timecode now < c → c ≤ timecode now + 4 →
      otpFn secret c ≠ otpFn secret (timecode now)) :
    verify_totp otpFn secret (totp_now otpFn secret now) (now + 29) = true ∧
    verify_totp otpFn secret (totp_now otpFn secret now) (now - 29) = true ∧
    verify_totp otpFn secret (totp_now otpFn secret now) (now + 65) = false := by
  refine ⟨?_, ?_, ?_⟩
  · exact verify_totp_of_near otpFn secret (timecode now) (now + 29)
      (by simp only [timecode]; omega)
  · exact verify_totp_of_near otpFn secret (timecode now) (now - 29)
      (by simp only [timecode]; omega)
  · have key : ∀ c : Int,
        (c = timecode (now + 65) - 1 ∨ c = timecode (now + 65) ∨
         c = timecode (now + 65) + 1) →
        otpFn secret c ≠ otpFn secret (timecode now) := by
      intro c hc
      apply hinj <;> (simp only [timecode] at hc ⊢; omega)
    simp only [verify_totp, totp_now, Bool.or_eq_false_iff,
      beq_eq_false_iff_ne, ne_eq]
    refine ⟨⟨?_, ?_⟩, ?_⟩
    · exact fun h => (key _ (Or.inl rfl)) h.symm
    · exact fun h => (key _ (Or.inr (Or.inl rfl))) h.symm
    · exact fun h => (key _ (Or.inr (Or.inr rfl))) h.symm

/-- Witness for C8 at a concrete time and a concrete (locally injective)
code function. -/
theorem verify_totp_window_witness :
    verify_totp (fun _ c => if c = 100 then "111111" else "222222") "S"
        (totp_now (fun _ c => if c = 100 then "111111" else "222222") "S" 3000)
        3029 = true ∧
    verify_totp (fun _ c => if c = 100 then "111111" else "222222") "S"
        (totp_now (fun _ c => if c = 100 then "111111" else "222222") "S" 3000)
        2971 = true ∧
    verify_totp (fun _ c => if c = 100 then "111111" else "222222") "S"
        (totp_now (fun _ c => if c = 100 then "111111" else "222222") "S" 3000)
        3065 = false :=
  verify_totp_window (fun _ c => if c = 100 then "111111" else "222222") "S"
    3000 (by decide)
    (by
      intro c h1 h2
      simp only [timecode] at h1 h2
      have hc : ¬c = 100 := by omega
      simp [timecode, hc])

/-! ### C2: no password check for non-password accounts -/

/-- C2: for a user whose authentication mode is not `PASSWORD`, who can log
in and has MFA disabled, `authenticate_user` succeeds with that user for any
submitted password, and its entire outcome (returned user and committed
state) is independent of the password argument. -/
theorem authenticate_user_password_independent (otpFn : String → Int → String)
    (db : Db) (email : String) (now : Nat) (u : User) (p1 p2 : String)
    (mfa : Option String)
    (hfind : db.findUserByEmail email = some u)
    (htype : u.security_type ≠ SecurityType.PASSWORD)
    (hcan : u.can_login now = true)
    (hmfa : u.mfa_enabled = false) :
    authenticate_user otpFn db email p1 mfa now =
      authenticate_user otpFn db email p2 mfa now ∧
    authenticate_user otpFn db email p1 mfa now =
      Except.ok (some (loginSuccessUpdate u now),
        db.saveUser (loginSuccessUpdate u now)) := by
  have h : ∀ p, authenticate_user otpFn db email p mfa now =
      Except.ok (some (loginSuccessUpdate u now),
        db.saveUser (loginSuccessUpdate u now)) := by
    intro p
    unfold authenticate_user
    rw [hfind]
    simp only [hcan, htype, hmfa]
    simp [pure, Except.pure]
  exact ⟨(h p1).trans (h p2).symm, h p1⟩

/-- Witness for C2: the OAuth user logs in with two unrelated passwords, with
identical outcomes. -/
theorem authenticate_user_password_independent_witness :
    (authenticate_user otpEx dbEx "carol@example.com" "some password" none 5000 =
      authenticate_user otpEx dbEx "carol@example.com" "another password" none 5000) ∧
    authenticate_user otpEx dbEx "carol@example.com" "some password" none 5000 =
      Except.ok (some (loginSuccessUpdate carolEx 5000),
        dbEx.saveUser (loginSuccessUpdate carolEx 5000)) :=
  authenticate_user_password_independent otpEx dbEx "carol@example.com" 5000
    carolEx "some password" "another password" none
    (by decide) (by decide) (by decide) (by decide)

/-! ### C1: lockout failure is not a distinguishable error -/

/-- C1 counterexample: with the account locked (until t = 10000, checked at
t = 5000), a login submitting the correct password fails with exactly the
same error value — 401, detail "Incorrect email or password" — that a
wrong-password attempt on an unlocked account produces, so the caller cannot
distinguish the lockout case; no `AccountLocked` error exists. -/
theorem login_locked_error_not_distinguishable_cex :
    (login cfgEx otpEx dbEx "alice@example.com" "correct horse" none 5000
        "jt1" none none).1 =
      Except.error (ApiError.unauthorized "Incorrect email or password") ∧
    (login cfgEx otpEx dbEx "bob@example.com" "not bobs password" none 5000
        "jt1" none none).1 =
      Except.error (ApiError.unauthorized "Incorrect email or password") := by
  exact ⟨rfl, rfl⟩

/-- C1 amended: a login attempt for a user whose lockout timestamp is in the
future fails even with the correct password, but with the same generic
401 "Incorrect email or password" error as invalid credentials — not with a
distinguishable lockout-specific error. -/
theorem login_locked_fails_generic (cfg : Settings)
    (otpFn : String → Int → String) (db : Db) (email password : String)
    (mfa : Option String) (now : Nat) (jti : String) (ip ua : Option String)
    (u : User)
    (hfind : db.findUserByEmail email = some u)
    (hlock : u.is_locked now = true) :
    (login cfg otpFn db email password mfa now jti ip ua).1 =
      Except.error (ApiError.unauthorized "Incorrect email or password") := by
  have hcan : u.can_login now = false := by
    simp [User.can_login, hlock]
  have hauth : authenticate_user otpFn db email password mfa now =
      Except.ok (none, db) := by
    unfold authenticate_user
    rw [hfind]
    simp [hcan, pure, Except.pure]
  simp [login, hauth]

/-- Witness for C1 (amended): the locked user with the correct password. -/
theorem login_locked_fails_generic_witness :
    (login cfgEx otpEx dbEx "alice@example.com" "correct horse" none 5000
        "jt2" none none).1 =
      Except.error (ApiError.unauthorized "Incorrect email or password") :=
  login_locked_fails_generic cfgEx otpEx dbEx "alice@example.com"
    "correct horse" none 5000 "jt2" none none aliceEx (by decide) (by decide)

/-! ### C10: logout revokes by token string alone -/

/-- C10: `logout` revokes the refresh-token row matched by token string
without checking ownership: for a stored row whose owning user differs from
the authenticated caller, logout still reports success and the row is
revoked. -/
theorem logout_no_ownership_check (db : Db) (caller : User) (tok : Token)
    (now : Nat) (r : RefreshTokenRec)
    (hfind : db.tokens.find? (fun x => x.token == tok) = some r)
    (howner : r.user_id ≠ caller.id) :
    (logout db caller tok now).1 = Except.ok "Successfully logged out" ∧
    ∃ r' ∈ (logout db caller tok now).2.tokens,
      r'.token = tok ∧ r'.user_id = r.user_id ∧ r'.user_id ≠ caller.id ∧
      r'.revoked = true := by
  have hany : db.tokens.any (fun x => x.token == tok) = true :=
    any_of_find?_eq_some hfind
  have htok : r.token = tok := by
    have := List.find?_some hfind
    exact beq_iff_eq.mp this
  constructor
  · simp [logout, revoke_refresh_token, hany]
  · refine ⟨{ r with revoked := true, revoked_at := some now }, ?_, htok, rfl,
      howner, rfl⟩
    simp only [logout, revoke_refresh_token, hany, if_true]
    exact mem_updateFirst_of_find? hfind

/-- Witness for C10: caller `aliceEx` (id 1) logs out with user 9's token. -/
theorem logout_no_ownership_check_witness :
    (logout dbTokEx aliceEx recEx.token 100).1 =
      Except.ok "Successfully logged out" ∧
    ∃ r' ∈ (logout dbTokEx aliceEx recEx.token 100).2.tokens,
      r'.token = recEx.token ∧ r'.user_id = recEx.user_id ∧
      r'.user_id ≠ aliceEx.id ∧ r'.revoked = true :=
  logout_no_ownership_check dbTokEx aliceEx recEx.token 100 recEx
    (by decide) (by decide)

/-! ### C9: password change revokes sessions but keeps the lockout -/

/-- C9: a successful password change stores the new hash and stamps
`password_changed_at`, revokes every refresh token of the user, and leaves
both the failed-login counter and the lockout timestamp untouched — an
account locked before the change is still locked after it. -/
theorem change_password_frame (db : Db) (u : User) (old_pw new_pw : String)
    (now salt : Nat) (h : Digest)
    (hhash : u.password_hash = some h)
    (hok : verify_password old_pw h = Except.ok true)
    (hfind : db.users.find? (fun v => v.id == u.id) = some u) :
    ∃ db₂ msg, change_password db u old_pw new_pw now salt =
        Except.ok (Except.ok msg, db₂) ∧
      (∀ r ∈ db₂.tokens, r.user_id = u.id → r.revoked = true) ∧
      (db₂.users.find? (fun v => v.id == u.id) =
        some { u with password_hash := some (hash_password salt new_pw),
                      password_changed_at := some now }) ∧
      (∀ v, db₂.users.find? (fun v2 => v2.id == u.id) = some v →
        v.failed_login_attempts = u.failed_login_attempts ∧
        v.locked_until = u.locked_until ∧
        ∀ t, v.is_locked t = u.is_locked t) := by
  have hstep : change_password db u old_pw new_pw now salt =
      Except.ok
        (Except.ok "Password changed successfully. Please login again with your new password.",
         ((revoke_all_user_tokens db u.id now).2).saveUser
           { u with password_hash := some (hash_password salt new_pw),
                    password_changed_at := some now }) := by
    unfold change_password
    rw [hhash]
    simp only [hok]
    rfl
  refine ⟨_, _, hstep, ?_, ?_, ?_⟩
  · intro r hr hrid
    simp only [Db.saveUser, revoke_all_user_tokens, List.mem_map] at hr
    obtain ⟨r0, _, rfl⟩ := hr
    by_cases hc : (r0.user_id == u.id && !r0.revoked) = true
    · simp [hc]
    · rw [if_neg hc] at hrid ⊢
      have hnc : ¬(r0.user_id = u.id ∧ r0.revoked = false) := by
        simpa [Bool.and_eq_true, beq_iff_eq, Bool.not_eq_true'] using hc
      by_cases hb : r0.revoked = true
      · exact hb
      · exact absurd ⟨hrid, by simpa using hb⟩ hnc
  · simp only [Db.saveUser, revoke_all_user_tokens]
    exact find?_updateFirst_const hfind (by simp)
  · intro v hv
    have : v = { u with password_hash := some (hash_password salt new_pw),
                        password_changed_at := some now } := by
      have h2 : ((revoke_all_user_tokens db u.id now).2.saveUser
          { u with password_hash := some (hash_password salt new_pw),
                   password_changed_at := some now }).users.find?
          (fun v2 => v2.id == u.id) =
          some { u with password_hash := some (hash_password salt new_pw),
                        password_changed_at := some now } := by
        simp only [Db.saveUser, revoke_all_user_tokens]
        exact find?_updateFirst_const hfind (by simp)
      exact Option.some.inj (hv.symm.trans h2)
    subst this
    exact ⟨rfl, rfl, fun t => rfl⟩

/-- Witness for C9 at concrete inputs. -/
theorem change_password_frame_witness :
    ∃ db₂ msg, change_password dbPwEx bobEx "bob secret" "n3w secret" 500 11 =
        Except.ok (Except.ok msg, db₂) ∧
      (∀ r ∈ db₂.tokens, r.user_id = bobEx.id → r.revoked = true) ∧
      (db₂.users.find? (fun v => v.id == bobEx.id) =
        some { bobEx with password_hash := some (hash_password 11 "n3w secret"),
                          password_changed_at := some 500 }) ∧
      (∀ v, db₂.users.find? (fun v2 => v2.id == bobEx.id) = some v →
        v.failed_login_attempts = bobEx.failed_login_attempts ∧
        v.locked_until = bobEx.locked_until ∧
        ∀ t, v.is_locked t = bobEx.is_locked t) :=
  change_password_frame dbPwEx bobEx "bob secret" "n3w secret" 500 11
    (hash_password 4 "bob secret") (by decide) (by rfl) (by decide)

/-! ### C5: a revoked (or expired) refresh token is never returned again -/

theorem allRevoked_updateFirst (tok : Token) (now : Nat) :
    ∀ l : List RefreshTokenRec,
      (l.filter (fun r => r.token == tok)).length ≤ 1 →
      ∀ r ∈ updateFirst (fun r => r.token == tok)
          (fun r => { r with revoked := true, revoked_at := some now }) l,
        r.token = tok → r.revoked = true := by
  intro l
  induction l with
  | nil => intro _ r hr; simp [updateFirst] at hr
  | cons x xs ih =>
    intro huniq r hr htok
    by_cases hx : (x.token == tok) = true
    · rw [updateFirst, if_pos hx] at hr
      rcases List.mem_cons.mp hr with rfl | hr
      · rfl
      · exfalso
        have hfil : xs.filter (fun r => r.token == tok) = [] := by
          simp only [List.filter_cons, hx, if_true, List.length_cons] at huniq
          exact List.length_eq_zero.mp (by omega)
        have : r ∈ xs.filter (fun r => r.token == tok) :=
          List.mem_filter.mpr ⟨hr, by simp [htok]⟩
        simp [hfil] at this
    · rw [updateFirst, if_neg hx] at hr
      rcases List.mem_cons.mp hr with rfl | hr
      · exact absurd (by simp [htok]) hx
      · refine ih ?_ r hr htok
        simpa only [List.filter_cons, hx, if_false] using huniq

theorem allRevoked_revoke (tok : Token) (now : Nat) (db : Db)
    (huniq : (db.tokens.filter (fun r => r.token == tok)).length ≤ 1)
    (hres : (revoke_refresh_token db tok now).1 = true) :
    allRevoked tok (revoke_refresh_token db tok now).2 := by
  by_cases hany : db.tokens.any (fun r => r.token == tok) = true
  · obtain ⟨x, hx, hpx⟩ := List.any_eq_true.mp hany
    simp only [revoke_refresh_token, hany, if_true]
    constructor
    · rcases exists_mem_updateFirst
          (p := fun r => r.token == tok)
          (f := fun r => { r with revoked := true, revoked_at := some now })
          hx with h | h
      · exact ⟨x, h, beq_iff_eq.mp hpx⟩
      · exact ⟨_, h, beq_iff_eq.mp hpx⟩
    · exact allRevoked_updateFirst tok now db.tokens huniq
  · rw [revoke_refresh_token, if_neg hany] at hres
    exact absurd hres (by simp)

theorem allRevoked_applyOp (tok : Token) (db : Db) (now₀ : Nat) (op : TokenOp)
    (h : allRevoked tok db) : allRevoked tok (applyOp db now₀ op) := by
  obtain ⟨⟨w, hw, hwt⟩, hall⟩ := h
  cases op with
  | save uid tk jti exp_ ip ua =>
    simp only [applyOp]
    by_cases hcol : db.tokens.any (fun r => r.token == tk || r.jti == jti) = true
    · rw [save_refresh_token, if_pos hcol]
      exact ⟨⟨w, hw, hwt⟩, hall⟩
    · rw [save_refresh_token, if_neg hcol]
      have htk : tk ≠ tok := by
        intro heq
        apply hcol
        exact List.any_eq_true.mpr ⟨w, hw, by simp [hwt, heq]⟩
      constructor
      · exact ⟨w, List.mem_append_left _ hw, hwt⟩
      · intro r hr htok
        rcases List.mem_append.mp hr with hr | hr
        · exact hall r hr htok
        · rw [List.mem_singleton] at hr
          subst hr
          exact absurd htok htk
  | revoke tk =>
    simp only [applyOp, revoke_refresh_token]
    by_cases hany : db.tokens.any (fun r => r.token == tk) = true
    · rw [if_pos hany]
      constructor
      · rcases exists_mem_updateFirst
            (p := fun r => r.token == tk)
            (f := fun r => { r with revoked := true, revoked_at := some now₀ })
            hw with h2 | h2
        · exact ⟨w, h2, hwt⟩
        · exact ⟨_, h2, hwt⟩
      · intro r hr htok
        rcases mem_updateFirst hr with h2 | ⟨x, hx, rfl⟩
        · exact hall r h2 htok
        · rfl
    · rw [if_neg hany]
      exact ⟨⟨w, hw, hwt⟩, hall⟩
  | revokeAll uid =>
    simp only [applyOp, revoke_all_user_tokens]
    constructor
    · refine ⟨if w.user_id == uid && !w.revoked then
          { w with revoked := true, revoked_at := some now₀ } else w,
        List.mem_map.mpr ⟨w, hw, rfl⟩, ?_⟩
      by_cases hc : (w.user_id == uid && !w.revoked) = true
      · rw [if_pos hc]
        exact hwt
      · rw [if_neg hc]
        exact hwt
    · intro r hr htok
      obtain ⟨x, hx, rfl⟩ := List.mem_map.mp hr
      by_cases hc : (x.user_id == uid && !x.revoked) = true
      · rw [if_pos hc]
      · rw [if_neg hc] at htok ⊢
        exact hall x hx htok

theorem allRevoked_applyOps (tok : Token) :
    ∀ (ops : List (Nat × TokenOp)) (db : Db),
      allRevoked tok db → allRevoked tok (applyOps db ops) := by
  intro ops
  induction ops with
  | nil => intro db h; exact h
  | cons p ops ih =>
    intro db h
    simp only [applyOps, List.foldl_cons]
    exact ih _ (allRevoked_applyOp tok db p.1 p.2 h)

theorem verify_none_of_allRevoked {tok : Token} {db : Db} {now' : Nat}
    (h : allRevoked tok db) : verify_refresh_token db tok now' = none := by
  apply List.find?_eq_none.mpr
  intro r hr hp
  have h1 := (Bool.and_eq_true _ _).mp hp
  have h2 := (Bool.and_eq_true _ _).mp h1.1
  have htok : r.token = tok := beq_iff_eq.mp h2.1
  have hrev : r.revoked = false := by simpa using h2.2
  have := h.2 r hr htok
  rw [this] at hrev
  exact Bool.noConfusion hrev

/-- C5: once `revoke_refresh_token` has marked a token's row revoked, no
subsequent sequence of token-store operations (inserts, targeted revokes,
bulk revokes) can make `verify_refresh_token` return that row again — it
returns `none` at every later call; and likewise any token all of whose rows
have passed their expiry is never returned. -/
theorem revoked_token_never_valid (db : Db) (tok : Token) (now : Nat)
    (ops : List (Nat × TokenOp)) (now' : Nat) :
    ((revoke_refresh_token db tok now).1 = true →
     (db.tokens.filter (fun r => r.token == tok)).length ≤ 1 →
     verify_refresh_token (applyOps (revoke_refresh_token db tok now).2 ops)
       tok now' = none) ∧
    (∀ db₂ : Db, (∀ r ∈ db₂.tokens, r.token = tok → r.expires_at ≤ now') →
      verify_refresh_token db₂ tok now' = none) := by
  constructor
  · intro hres huniq
    exact verify_none_of_allRevoked
      (allRevoked_applyOps tok ops _ (allRevoked_revoke tok now db huniq hres))
  · intro db₂ hexp
    apply List.find?_eq_none.mpr
    intro r hr hp
    have h1 := (Bool.and_eq_true _ _).mp hp
    have h2 := (Bool.and_eq_true _ _).mp h1.1
    have htok : r.token = tok := beq_iff_eq.mp h2.1
    have hlt : now' < r.expires_at := of_decide_eq_true h1.2
    exact absurd (hexp r hr htok) (by omega)

/-- Witness for C5: revoke at t = 10, then attempt a re-insert of the same
token string and a bulk revoke; the token is still reported invalid at
t = 40.  The expired-row case is checked at t = 60. -/
theorem revoked_token_never_valid_witness :
    verify_refresh_token
        (applyOps (revoke_refresh_token dbC5 tokC5 10).2
          [(20, TokenOp.save 5 tokC5 "jt6" 99999 none none),
           (30, TokenOp.revokeAll 5)]) tokC5 40 = none ∧
    verify_refresh_token dbC5exp tokC5 60 = none :=
  ⟨(revoked_token_never_valid dbC5 tokC5 10
      [(20, TokenOp.save 5 tokC5 "jt6" 99999 none none),
       (30, TokenOp.revokeAll 5)] 40).1 (by decide) (by decide),
   (revoked_token_never_valid dbC5 tokC5 10
      [(20, TokenOp.save 5 tokC5 "jt6" 99999 none none),
       (30, TokenOp.revokeAll 5)] 60).2 dbC5exp (by decide)⟩
